import Mathlib

/-!
Shallow embedding of the core pipeline of `src/demo_app.py` (Moodle Engagement
Dashboard): filter engine, engagement aggregator, risk classifier, summary
sort, and the alert-send button handler.  Timestamps are modelled as minutes
since an epoch (`Nat`); the derived `Date` column is the calendar-day number
`time / 1440`.  Missing (NaN) cells of string columns are `Option.none`.
-/

namespace MoodleDashboard

/-- Minutes per calendar day; a pandas timestamp normalised to midnight is a
multiple of this. -/
def minutesPerDay : Nat := 1440

/-- Day number of a timestamp: the model of `df["Date"] = df["Time"].dt.date`
(line 52) and of `Timestamp.normalize` counted in days. -/
def dateOf (t : Nat) : Nat := t / minutesPerDay

/-- One normalized log row (after line 52 of demo_app.py): parsed Time plus the
string columns, each possibly missing. -/
structure Event where
  time : Nat
  userFullName : Option String
  eventContext : Option String
  component : Option String
  eventName : Option String
  origin : Option String
deriving DecidableEq

/-- The sentinel meaning "no restriction" in the course and origin selectors. -/
def allSentinel : String := "(All)"

/-- The filter engine, lines 117-137 of demo_app.py: course match, origin match
(missing origin shown as "(blank)"), inclusive date range on the derived date,
event-name membership when the selection is non-empty, and finally the
hard-coded removal of rows whose origin (missing read as "") is "cli". -/
def filterEvents (df : List Event) (course origin : String)
    (selectedEvents : List String) (startDate endDate : Nat) : List Event :=
  let f1 := if course = allSentinel then df
    else df.filter (fun e => e.eventContext == some course)
  let f2 := if origin = allSentinel then f1
    else f1.filter (fun e => e.origin.getD "(blank)" == origin)
  let f3 := f2.filter (fun e =>
    decide (startDate ≤ dateOf e.time) && decide (dateOf e.time ≤ endDate))
  let f4 := if selectedEvents.isEmpty then f3
    else f3.filter (fun e => match e.eventName with
      | some n => selectedEvents.contains n
      | none => false)
  f4.filter (fun e => ! (e.origin.getD "" == "cli"))

/-- Fixed passive content-view event names (line 150). -/
def content_view_events : List String :=
  ["Section viewed", "Page viewed", "Resource viewed", "URL viewed",
   "File viewed", "Course module viewed"]

/-- Fixed active submission event names (line 151). -/
def submission_events : List String :=
  ["Assignment submitted", "Quiz attempted", "Quiz submission submitted", "Post created"]

/-- One row of the per-student summary table (lines 154-164). -/
structure Summary where
  userFullName : String
  lastAccess : Nat
  totalEvents : Nat
  activeDays : Nat
  contentViews : Nat
  courseViews : Nat
  submissions : Nat
  inactiveDays : Int
deriving DecidableEq

/-- The rows of one groupby group: events carrying the given student name. -/
def groupOf (f : List Event) (name : String) : List Event :=
  f.filter (fun e => e.userFullName == some name)

/-- Code-point comparison of characters, the unit of the lexicographic string
order pandas uses when sorting group keys. -/
def charLtB (a b : Char) : Bool := decide (a.toNat < b.toNat)

/-- Lexicographic strict order on character lists by code point. -/
def charListLtB : List Char → List Char → Bool
  | _, [] => false
  | [], _ :: _ => true
  | a :: as, b :: bs => charLtB a b || (decide (a = b) && charListLtB as bs)

/-- Lexicographic (code-point) order on strings: the key order of pandas
groupby with its default key sorting. -/
def strLeB (a b : String) : Bool := ! charListLtB b.data a.data

/-- The groupby keys: distinct non-missing student names (pandas groupby drops
missing keys and sorts the distinct keys lexicographically). -/
def groupNames (f : List Event) : List String :=
  ((f.filterMap (fun e => e.userFullName)).dedup).insertionSort
    (fun a b => strLeB a b = true)

/-- Aggregation of one group (the `agg` of lines 154-161 together with the
inactive-day column of line 164): last access is the max Time, active days
counts distinct dates on or after the cutoff, and inactive days is the whole
day difference between normalized now and normalized last access. -/
def aggregateGroup (rows : List Event) (name : String) (todayDay : Nat)
    (cutoff : Int) : Summary :=
  let lastAccess := (rows.map (fun e => e.time)).foldl max 0
  { userFullName := name
    lastAccess := lastAccess
    totalEvents := rows.length
    activeDays := (((rows.map (fun e => (dateOf e.time : Int))).filter
      (fun d => decide (cutoff ≤ d))).dedup).length
    contentViews := rows.countP (fun e => match e.eventName with
      | some n => content_view_events.contains n
      | none => false)
    courseViews := rows.countP (fun e => e.eventName == some "Course viewed")
    submissions := rows.countP (fun e => match e.eventName with
      | some n => submission_events.contains n
      | none => false)
    inactiveDays := (todayDay : Int) - (dateOf lastAccess : Int) }

/-- The engagement aggregator (lines 146-164): capture now, derive the cutoff
day `today - lookback_days`, and aggregate each group. -/
def summarize (f : List Event) (now : Nat) (lookbackDays : Nat) : List Summary :=
  let todayDay := dateOf now
  let cutoff : Int := (todayDay : Int) - (lookbackDays : Int)
  (groupNames f).map (fun name => aggregateGroup (groupOf f name) name todayDay cutoff)

/-- The three risk tiers of the classifier. -/
inductive Status where
  | atRisk
  | warning
  | active
deriving DecidableEq

/-- The risk classifier `status_row` (lines 167-172): at risk when inactive
days exceed the threshold or there are no active days, else warning when at
most two active days, else active. -/
def status_row (inactiveDays : Int) (activeDays : Nat) (riskInactiveDays : Int) : Status :=
  if inactiveDays > riskInactiveDays ∨ activeDays = 0 then .atRisk
  else if activeDays ≤ 2 then .warning
  else .active

/-- The status rank used as primary sort key (the dict `order` of line 184). -/
def order (s : Status) : Nat :=
  match s with
  | .atRisk => 0
  | .warning => 1
  | .active => 2

/-- A summary row together with its computed status column (line 175). -/
structure ClassifiedRow where
  summary : Summary
  status : Status
deriving DecidableEq

/-- Attach the status column: `summary.apply(status_row, axis=1)` of line 175. -/
def classify (s : List Summary) (riskInactiveDays : Int) : List ClassifiedRow :=
  s.map (fun r => ⟨r, status_row r.inactiveDays r.activeDays riskInactiveDays⟩)

/-- Case-insensitive substring test modelling `str.contains(search, case=False)`
of line 180 for a plain (non-regex) search string. -/
def strContains (hay needle : String) : Bool :=
  decide (((hay.toLower).splitOn (needle.toLower)).length ≠ 1)

/-- The optional name search applied after classification (lines 179-180):
only applied when the stripped search text is non-empty. -/
def applySearch (search : String) (rows : List ClassifiedRow) : List ClassifiedRow :=
  if search.trim = "" then rows
  else rows.filter (fun r => strContains r.summary.userFullName search)

/-- The boolean sort key of line 186: ascending status rank, ties broken by
descending inactive days.  A multi-column pandas sort_values is a stable
lexicographic sort (numpy lexsort), so the summary sort is this key applied by
a stable sort. -/
def sortLe (a b : ClassifiedRow) : Bool :=
  decide (order a.status < order b.status) ||
    (decide (order a.status = order b.status) &&
      decide (b.summary.inactiveDays ≤ a.summary.inactiveDays))

/-- The summary sort of line 186, as a stable sort by `sortLe`. -/
def sortSummary (rows : List ClassifiedRow) : List ClassifiedRow :=
  rows.mergeSort sortLe

/-- The halt taken when the filters leave no rows (lines 140-142). -/
inductive PipelineError where
  | emptyResult
deriving DecidableEq

/-- The full recomputation pass: filter, halt on an empty result (lines
140-142), aggregate, classify, apply the optional name search, sort. -/
def runPipeline (df : List Event) (course origin : String) (selectedEvents : List String)
    (startDate endDate : Nat) (now : Nat) (lookbackDays : Nat) (riskInactiveDays : Int)
    (searchName : String) : Except PipelineError (List ClassifiedRow) :=
  let f := filterEvents df course origin selectedEvents startDate endDate
  if f.isEmpty then .error .emptyResult
  else .ok (sortSummary (applySearch searchName
    (classify (summarize f now lookbackDays) riskInactiveDays)))

/-- The KPI "Events (filtered)" of line 192: the row count of the filtered
table, missing-name rows included. -/
def kpiEventsFiltered (f : List Event) : Nat := f.length

/-- The composed alert e-mail (lines 244-257): subject with the at-risk count,
From header `smtp_user or coord_mail` (Python or: falls through on None and on
the empty string), To the coordinator, and the plain-text body. -/
structure EmailAlert where
  subject : String
  fromAddr : String
  toAddr : String
  body : String
deriving DecidableEq

/-- Build the message of lines 244-257 from the at-risk rows. -/
def composeAlert (atRisk : List ClassifiedRow) (smtpUser : Option String)
    (coordMail : String) (nowStr : String) : EmailAlert :=
  let bodyLines := ["Moodle early-alert – " ++ nowStr,
      "Students flagged as At Risk: " ++ toString atRisk.length, ""] ++
    atRisk.map (fun r => r.summary.userFullName ++ " — Inactive " ++
      toString r.summary.inactiveDays ++ " days — Active days: " ++
      toString r.summary.activeDays)
  { subject := "Moodle early-alert – " ++ toString atRisk.length ++ " students"
    fromAddr := match smtpUser with
      | some u => if u = "" then coordMail else u
      | none => coordMail
    toAddr := coordMail
    body := String.intercalate "\n" bodyLines }

/-- Outcome of pressing the send button: the no-at-risk notice, the missing
address validation error, or handing a composed message to the transport. -/
inductive AlertOutcome where
  | noAtRisk
  | validationError
  | send (msg : EmailAlert)
deriving DecidableEq

/-- Whether the outcome reaches the transport. -/
def AlertOutcome.isSend : AlertOutcome → Bool
  | .send _ => true
  | _ => false

/-- The button handler of lines 237-257: notice when no one is at risk, the
validation error exactly when `not coord_mail`, i.e. when the address string is
empty (a whitespace-only string is truthy in Python), otherwise compose and
hand to the transport. -/
def sendAlertButton (atRisk : List ClassifiedRow) (coordMail : String)
    (smtpUser : Option String) (nowStr : String) : AlertOutcome :=
  if atRisk.isEmpty then .noAtRisk
  else if coordMail = "" then .validationError
  else .send (composeAlert atRisk smtpUser coordMail nowStr)

/-! Concrete sample data used to instantiate the theorems below. -/

/-- A web "Course viewed" event by student "a" at midnight of the given day. -/
def mkEv (d : Nat) : Event :=
  ⟨d * minutesPerDay, some "a", some "C1", some "sys", some "Course viewed", some "web"⟩

/-- Four events on the four consecutive days ending at day 100. -/
def c2Events : List Event := [mkEv 97, mkEv 98, mkEv 99, mkEv 100]

/-- A single event on day 50. -/
def c8Events : List Event := [mkEv 50]

/-- The summary row the aggregator produces from `c8Events` at now = day 100
with a 7-day lookback. -/
def c8Summary : Summary := ⟨"a", 72000, 1, 0, 0, 1, 0, 50⟩

/-- The summary row the aggregator produces from `c2Events` at now = day 100
with a 3-day lookback. -/
def c2Summary : Summary := ⟨"a", 144000, 4, 4, 0, 4, 0, 0⟩

/-- A concrete at-risk classified row. -/
def sampleRow : ClassifiedRow := ⟨⟨"a", 0, 1, 0, 0, 0, 0, 20⟩, .atRisk⟩

/-- Two active rows with equal status and equal inactive days but different
names. -/
def rowA : ClassifiedRow := ⟨⟨"a", 0, 1, 3, 0, 0, 0, 1⟩, .active⟩

/-- Companion row to `rowA` with the same sort keys. -/
def rowB : ClassifiedRow := ⟨⟨"b", 0, 1, 3, 0, 0, 0, 1⟩, .active⟩

/-- An event whose origin is "web". -/
def webEvent : Event := ⟨0, some "a", some "C1", some "sys", some "Course viewed", some "web"⟩

/-! Theorems. -/

/-- C1: the risk classifier is the stated pure function of inactive days,
active days and the threshold: AT_RISK exactly when inactive days exceed the
threshold or active days are zero; otherwise WARNING exactly when active days
are at most two; otherwise ACTIVE; and zero active days force AT_RISK
regardless of inactive days. -/
theorem status_row_spec (inactiveDays riskInactiveDays : Int) (activeDays : Nat) :
    (status_row inactiveDays activeDays riskInactiveDays = .atRisk ↔
      (inactiveDays > riskInactiveDays ∨ activeDays = 0)) ∧
    (status_row inactiveDays activeDays riskInactiveDays = .warning ↔
      (¬ (inactiveDays > riskInactiveDays ∨ activeDays = 0) ∧ activeDays ≤ 2)) ∧
    (status_row inactiveDays activeDays riskInactiveDays = .active ↔
      (¬ (inactiveDays > riskInactiveDays ∨ activeDays = 0) ∧ ¬ activeDays ≤ 2)) ∧
    (activeDays = 0 → status_row inactiveDays activeDays riskInactiveDays = .atRisk) := by
  unfold status_row
  by_cases h1 : inactiveDays > riskInactiveDays ∨ activeDays = 0
  · rw [if_pos h1]
    by_cases h2 : activeDays ≤ 2 <;> simp [h1, h2]
  · rw [if_neg h1]
    have hlt : ¬ inactiveDays > riskInactiveDays := fun h => h1 (Or.inl h)
    have hne : ¬ activeDays = 0 := fun h => h1 (Or.inr h)
    by_cases h2 : activeDays ≤ 2 <;> simp [h1, h2, hlt, hne]

/-- Witness for C1 at the concrete row (inactive 20, active 0, threshold 14). -/
theorem status_row_spec_witness : status_row 20 0 14 = .atRisk :=
  (status_row_spec 20 14 0).2.2.2 rfl

/-- C2 as stated is false: with the minimal 3-day lookback, events on the four
days from the cutoff through today give an active-day count of 4 > 3 (the
cutoff comparison is inclusive). -/
theorem active_days_gt_lookback_cex :
    ¬ (∀ s ∈ summarize c2Events (100 * minutesPerDay) 3, s.activeDays ≤ 3) := by
  decide

/-- A duplicate-free list of integers bounded below by a and above by b fits
inside the integer interval from a to b. -/
theorem nodup_bounded_length_le (l : List Int) (hnd : l.Nodup) (a b : Int)
    (h : ∀ d ∈ l, a ≤ d ∧ d ≤ b) : l.length ≤ (b + 1 - a).toNat := by
  have hsub : l.toFinset ⊆ Finset.Icc a b := by
    intro x hx
    rw [List.mem_toFinset] at hx
    exact Finset.mem_Icc.mpr (h x hx)
  have hcard := Finset.card_le_card hsub
  rw [List.toFinset_card_of_nodup hnd] at hcard
  rwa [Int.card_Icc] at hcard

/-- C2 amended: whenever every filtered event date is on or before the date of
the captured now, each active-day count is at most lookback_days + 1 — the
cutoff comparison is inclusive, so the window spans lookback_days + 1 calendar
dates, and the stated bound of lookback_days itself is exceeded at the
boundary. -/
theorem active_days_le_lookback_succ (f : List Event) (now lookbackDays : Nat)
    (hpast : ∀ e ∈ f, dateOf e.time ≤ dateOf now) :
    ∀ s ∈ summarize f now lookbackDays, s.activeDays ≤ lookbackDays + 1 := by
  intro s hs
  simp only [summarize, List.mem_map] at hs
  obtain ⟨name, hname, rfl⟩ := hs
  simp only [aggregateGroup]
  set cutoff : Int := (dateOf now : Int) - (lookbackDays : Int) with hcut
  set l := (((groupOf f name).map (fun e => (dateOf e.time : Int))).filter
    (fun d => decide (cutoff ≤ d))).dedup with hl
  have hbound : ∀ d ∈ l, cutoff ≤ d ∧ d ≤ (dateOf now : Int) := by
    intro d hd
    rw [hl, List.mem_dedup, List.mem_filter] at hd
    rcases hd with ⟨hdm, hdc⟩
    refine ⟨by simpa using hdc, ?_⟩
    rw [List.mem_map] at hdm
    obtain ⟨e, he, rfl⟩ := hdm
    exact_mod_cast hpast e (List.mem_of_mem_filter he)
  have hlen := nodup_bounded_length_le l (List.nodup_dedup _) cutoff (dateOf now) hbound
  have harith : ((dateOf now : Int) + 1 - cutoff).toNat = lookbackDays + 1 := by
    rw [hcut]; omega
  omega

/-- Witness for the amended C2 on the concrete four-day input. -/
theorem active_days_le_lookback_succ_witness : c2Summary.activeDays ≤ 3 + 1 :=
  active_days_le_lookback_succ c2Events (100 * minutesPerDay) 3 (by decide)
    c2Summary (by decide)

/-- C3 as stated is false: with a whitespace-only coordinator address the
button handler composes a message and reaches the transport, because the
blank-address validation only fires on the empty string (Python truthiness),
so no validation failure is reported. -/
theorem whitespace_coord_reaches_transport :
    (sendAlertButton [sampleRow] " " none "t").isSend = true ∧
    sendAlertButton [sampleRow] " " none "t" ≠ .validationError := by
  refine ⟨rfl, ?_⟩
  intro h
  have hfalse : (AlertOutcome.validationError).isSend = true := by rw [← h]; rfl
  exact Bool.false_ne_true hfalse

/-- C3 amended: the validation failure fires exactly on the empty coordinator
address (then nothing is composed and the transport is not reached); a
whitespace-only address is a non-empty string, passes the check, and the
composed message is handed to the transport. -/
theorem empty_coord_validation (atRisk : List ClassifiedRow) (smtpUser : Option String)
    (nowStr : String) (h : atRisk ≠ []) :
    sendAlertButton atRisk "" smtpUser nowStr = .validationError := by
  cases atRisk with
  | nil => exact absurd rfl h
  | cons a l => rfl

/-- Witness for the amended C3 at a concrete nonempty at-risk list. -/
theorem empty_coord_validation_witness :
    sendAlertButton [sampleRow] "" none "t" = .validationError :=
  empty_coord_validation [sampleRow] none "t" (List.cons_ne_nil _ _)

/-- The sort key is transitive. -/
theorem sortLe_trans : ∀ a b c : ClassifiedRow,
    sortLe a b = true → sortLe b c = true → sortLe a c = true := by
  intro a b c hab hbc
  simp only [sortLe, Bool.or_eq_true, Bool.and_eq_true, decide_eq_true_eq] at hab hbc ⊢
  omega

/-- The sort key is total. -/
theorem sortLe_total : ∀ a b : ClassifiedRow, (sortLe a b || sortLe b a) = true := by
  intro a b
  simp only [sortLe, Bool.or_eq_true, Bool.and_eq_true, decide_eq_true_eq]
  omega

/-- C4: the summary sort is stable — two rows with equal status and equal
inactive days that appear in this order in the input appear in the same order
in the sorted output. -/
theorem sort_summary_stable (l : List ClassifiedRow) (a b : ClassifiedRow)
    (hab : [a, b].Sublist l) (hstatus : a.status = b.status)
    (hinact : a.summary.inactiveDays = b.summary.inactiveDays) :
    [a, b].Sublist (sortSummary l) := by
  apply List.pair_sublist_mergeSort sortLe_trans sortLe_total ?_ hab
  simp [sortLe, hstatus, hinact]

/-- Witness for C4 on two rows with identical sort keys. -/
theorem sort_summary_stable_witness :
    [rowA, rowB].Sublist (sortSummary [rowA, rowB]) :=
  sort_summary_stable [rowA, rowB] rowA rowB (List.Sublist.refl _) rfl rfl

/-- C5: the sorted summary is a permutation of its rows arranged ascending by
status rank with ties broken by descending inactive days. -/
theorem sort_summary_sorted (l : List ClassifiedRow) :
    (sortSummary l).Perm l ∧
    (sortSummary l).Pairwise (fun a b =>
      order a.status < order b.status ∨
        (order a.status = order b.status ∧ b.summary.inactiveDays ≤ a.summary.inactiveDays)) := by
  refine ⟨List.mergeSort_perm l sortLe, ?_⟩
  have h := List.sorted_mergeSort sortLe_trans sortLe_total l
  refine h.imp ?_
  intro a b hab
  simpa only [sortLe, Bool.or_eq_true, Bool.and_eq_true, decide_eq_true_eq] using hab

/-- C6: when the filter criteria select zero rows, the recomputation pass
halts with the empty-result notice and produces no summary. -/
theorem empty_filter_halts (df : List Event) (course origin : String)
    (selectedEvents : List String) (startDate endDate now lookbackDays : Nat)
    (riskInactiveDays : Int) (searchName : String)
    (h : filterEvents df course origin selectedEvents startDate endDate = []) :
    runPipeline df course origin selectedEvents startDate endDate now lookbackDays
      riskInactiveDays searchName = .error .emptyResult := by
  simp [runPipeline, h]

/-- Witness for C6 on the empty upload. -/
theorem empty_filter_halts_witness :
    runPipeline [] allSentinel allSentinel [] 0 0 0 7 14 "" = .error .emptyResult :=
  empty_filter_halts [] allSentinel allSentinel [] 0 0 0 7 14 "" rfl

/-- C7: for every input table, selection and date range, no row with origin
"cli" survives the filter engine. -/
theorem cli_always_excluded (df : List Event) (course origin : String)
    (selectedEvents : List String) (startDate endDate : Nat) (e : Event)
    (he : e ∈ filterEvents df course origin selectedEvents startDate endDate) :
    e.origin ≠ some "cli" := by
  simp only [filterEvents] at he
  have h2 := (List.mem_filter.mp he).2
  intro hcli
  rw [hcli] at h2
  simp at h2

/-- Witness for C7 on a surviving one-row table. -/
theorem cli_always_excluded_witness : webEvent.origin ≠ some "cli" :=
  cli_always_excluded [webEvent] allSentinel allSentinel [] 0 0 webEvent (by decide)

/-- C8: a summary whose last-access timestamp is not after the captured now
has a nonnegative inactive-day count. -/
theorem inactive_days_nonneg (f : List Event) (now lookbackDays : Nat)
    (s : Summary) (hs : s ∈ summarize f now lookbackDays)
    (h : s.lastAccess ≤ now) : 0 ≤ s.inactiveDays := by
  simp only [summarize, List.mem_map] at hs
  obtain ⟨name, hname, rfl⟩ := hs
  simp only [aggregateGroup] at h ⊢
  have hdiv : dateOf (((groupOf f name).map (fun e => e.time)).foldl max 0) ≤ dateOf now :=
    Nat.div_le_div_right h
  omega

/-- Witness for C8 on a single event 50 days before now. -/
theorem inactive_days_nonneg_witness : 0 ≤ c8Summary.inactiveDays :=
  inactive_days_nonneg c8Events (100 * minutesPerDay) 7 c8Summary (by decide) (by decide)

/-- Restricting to rows with a present name leaves the name column of the
filtered table unchanged. -/
theorem filterMap_name_filter_isSome (f : List Event) :
    (f.filter (fun e => e.userFullName.isSome)).filterMap (fun e => e.userFullName) =
      f.filterMap (fun e => e.userFullName) := by
  induction f with
  | nil => rfl
  | cons e t ih =>
    cases he : e.userFullName with
    | none => simp [List.filter_cons, List.filterMap_cons, he, ih]
    | some n => simp [List.filter_cons, List.filterMap_cons, he, ih]

/-- Restricting to rows with a present name leaves every groupby group
unchanged. -/
theorem groupOf_filter_isSome (f : List Event) (name : String) :
    groupOf (f.filter (fun e => e.userFullName.isSome)) name = groupOf f name := by
  induction f with
  | nil => rfl
  | cons e t ih =>
    cases he : e.userFullName with
    | none => simp [groupOf, List.filter_cons, he] at ih ⊢; exact ih
    | some n => simp [groupOf, List.filter_cons, he] at ih ⊢; simp [ih]

/-- C9: rows with a missing student name are invisible to the per-student
summary — dropping them changes nothing, and every summary row carries the
name of some row that has one — while the filtered-events KPI counts every
row, the missing-name ones included. -/
theorem missing_names_absent (f : List Event) (now lookbackDays : Nat) :
    summarize (f.filter (fun e => e.userFullName.isSome)) now lookbackDays =
      summarize f now lookbackDays ∧
    (∀ s ∈ summarize f now lookbackDays, ∃ e ∈ f, e.userFullName = some s.userFullName) ∧
    kpiEventsFiltered f = f.length := by
  refine ⟨?_, ?_, rfl⟩
  · simp only [summarize, groupNames, filterMap_name_filter_isSome]
    exact List.map_congr_left (fun name hn => by rw [groupOf_filter_isSome])
  · intro s hs
    simp only [summarize, List.mem_map] at hs
    obtain ⟨name, hname, rfl⟩ := hs
    simp only [aggregateGroup]
    have hmem : name ∈ (f.filterMap (fun e => e.userFullName)).dedup := by
      have hperm := List.perm_insertionSort
        (fun a b => strLeB a b = true) ((f.filterMap (fun e => e.userFullName)).dedup)
      exact hperm.subset (by simpa only [groupNames] using hname)
    rw [List.mem_dedup, List.mem_filterMap] at hmem
    obtain ⟨e, he, heq⟩ := hmem
    exact ⟨e, he, heq⟩

/-- C10: the From header of the composed alert is the SMTP username when that
environment value is set and non-empty, and otherwise the coordinator address,
in which case the message is addressed from and to the same address. -/
theorem from_header_spec (atRisk : List ClassifiedRow) (smtpUser : Option String)
    (coordMail nowStr : String) :
    (∀ u, smtpUser = some u → u ≠ "" →
      (composeAlert atRisk smtpUser coordMail nowStr).fromAddr = u) ∧
    ((smtpUser = none ∨ smtpUser = some "") →
      (composeAlert atRisk smtpUser coordMail nowStr).fromAddr = coordMail ∧
      (composeAlert atRisk smtpUser coordMail nowStr).fromAddr =
        (composeAlert atRisk smtpUser coordMail nowStr).toAddr) := by
  constructor
  · rintro u rfl hu
    simp [composeAlert, hu]
  · rintro (rfl | rfl) <;> simp [composeAlert]

/-- Witness for C10 with a set username and with an unset one. -/
theorem from_header_spec_witness :
    (composeAlert [] (some "user") "coord" "t").fromAddr = "user" ∧
    (composeAlert [] none "coord" "t").fromAddr = "coord" :=
  ⟨(from_header_spec [] (some "user") "coord" "t").1 "user" rfl (by decide),
    ((from_header_spec [] none "coord" "t").2 (Or.inl rfl)).1⟩

end MoodleDashboard
